import Mathlib

/-!
Shallow embedding of the content-moderation pipeline (src/main.py and
src/app.py) and proofs of the specification claims about it.

The pipeline threads a single record, `ModerationState`, through four
stages: a preprocessor (`analyse_content`), a severity classifier
(`classify_severity`, which delegates to an external classification
capability modelled as an explicit oracle parameter), a router
(`routing_decision`) and four action resolvers (`approve`, `flag`,
`reject`, `escalate`).  The langgraph wiring at the bottom of
src/main.py is modelled as an explicit node/edge table together with a
fuelled executor.
-/

namespace ContentModerator

/-- Values that can appear in the metadata dictionary of the state:
Python strings, integers and booleans. -/
inductive Value where
  | str (s : String)
  | int (n : Nat)
  | bool (b : Bool)
  deriving DecidableEq

/-- The moderation state (the `ModerationState` TypedDict of src/main.py).
Optional fields model dictionary keys that may be absent or `None`. -/
structure ModerationState where
  content : String
  severity : Option String
  action : Option String
  explanation : Option String
  metadata : Option (List (String × Value))
  deriving DecidableEq

/-- The structured classifier response (`SeverityClassification` in
src/main.py): pydantic constrains the severity to exactly four labels. -/
inductive SeverityLabel where
  | safe | questionable | inappropriate | harmful
  deriving DecidableEq

/-- Rendering of a `SeverityLabel` as the literal Python string. -/
def SeverityLabel.toStr : SeverityLabel → String
  | .safe => "safe"
  | .questionable => "questionable"
  | .inappropriate => "inappropriate"
  | .harmful => "harmful"

/-- The structured output of the external classification capability. -/
structure SeverityClassification where
  severity : SeverityLabel
  explanation : String
  deriving DecidableEq

/-- Whitespace in the sense of the Python string methods used by the code
(`str.strip` and `str.split`, restricted to the ASCII whitespace set). -/
def isPyWs (c : Char) : Bool :=
  c = ' ' || c = '\t' || c = '\n' || c = '\r' || c = '\x0b' || c = '\x0c'

/-- Model of the Python expression `content.strip()`. -/
def pyStrip (s : String) : String :=
  String.mk (((s.toList.dropWhile isPyWs).reverse.dropWhile isPyWs).reverse)

/-- Helper for `pySplit`: splits a character list on runs of whitespace,
dropping empty tokens, exactly as Python `str.split()` with no argument. -/
def splitWsAux : List Char → List Char → List (List Char)
  | [], cur => if cur = [] then [] else [cur.reverse]
  | c :: cs, cur =>
    if isPyWs c then
      if cur = [] then splitWsAux cs [] else cur.reverse :: splitWsAux cs []
    else
      splitWsAux cs (c :: cur)

/-- Model of the Python expression `content.split()`. -/
def pySplit (s : String) : List String :=
  (splitWsAux s.toList []).map String.mk

/-- Helper: the first list is an initial segment of the second. -/
def listStartsWith : List Char → List Char → Bool
  | [], _ => true
  | _ :: _, [] => false
  | a :: as, b :: bs => a = b && listStartsWith as bs

/-- Helper: the first list occurs contiguously inside the second. -/
def listContainsSub (needle : List Char) : List Char → Bool
  | [] => needle = []
  | h :: t => listStartsWith needle (h :: t) || listContainsSub needle t

/-- Model of the Python expression `sub in s` (substring containment). -/
def strContains (s sub : String) : Bool :=
  listContainsSub sub.toList s.toList

/-- Insertion into a Python dictionary modelled as an association list:
an existing key is updated in place, a new key is appended at the end. -/
def dictInsert (d : List (String × Value)) (k : String) (v : Value) :
    List (String × Value) :=
  if d.any (fun p => p.1 = k) then
    d.map (fun p => if p.1 = k then (k, v) else p)
  else
    d ++ [(k, v)]

/-- Model of the Python dictionary merge expression with a double star
spread of `a` followed by a double star spread of `b`: keys of `b`
override keys of `a`, new keys of `b` are appended in order. -/
def dictMerge (a b : List (String × Value)) : List (String × Value) :=
  b.foldl (fun acc p => dictInsert acc p.1 p.2) a

/-- Lookup in a Python dictionary modelled as an association list. -/
def dictLookup (d : List (String × Value)) (k : String) : Option Value :=
  (d.find? (fun p => p.1 = k)).map (fun p => p.2)

/-- Content Analyzer node (`analyse_content` in src/main.py): derives
structural metadata from the raw content, short-circuiting to an error
marker when the content is empty or blank.  The returned partial update
is applied to the state the way langgraph merges node output keys. -/
def analyse_content (state : ModerationState) : ModerationState :=
  let content := state.content
  if content = "" || (pyStrip content).length = 0 then
    { state with metadata := some [("error", Value.str "Content is empty")] }
  else
    let analysis_metadata : List (String × Value) :=
      [("content_length", Value.int content.length),
       ("word_count", Value.int (pySplit content).length),
       ("has_urls", Value.bool
          (strContains content "http://" || strContains content "https://"))]
    { state with
        metadata := some (dictMerge (state.metadata.getD []) analysis_metadata) }

/-- Rendering of a metadata value inside the f-string of
`classify_severity` (Python formatting of str, int and bool values). -/
def valueStr : Value → String
  | .str s => s
  | .int n => toString n
  | .bool b => if b then "True" else "False"

/-- The metadata summary string built by `classify_severity`: a newline
joined listing of the metadata entries, or the literal marker when the
metadata is absent or empty. -/
def metadataStr (metadata : Option (List (String × Value))) : String :=
  match metadata with
  | none => "No metadata available"
  | some m =>
    if m = [] then "No metadata available"
    else String.intercalate "\n" (m.map (fun p => "- " ++ p.1 ++ ": " ++ valueStr p.2))

/-- The external classification capability: given the content and the
metadata summary it either returns a structured classification or fails
(a model of network errors, timeouts and pydantic validation failures on
responses outside the four-label enumeration, all of which surface as a
raised exception in the Python code). -/
def Oracle : Type := String → String → Except String SeverityClassification

/-- Severity Classifier node (`classify_severity` in src/main.py):
submits the content and metadata summary to the external capability and
writes the returned severity and explanation into the state.  A failure
of the capability propagates as a failure of the node. -/
def classify_severity (oracle : Oracle) (state : ModerationState) :
    Except String ModerationState :=
  let content := state.content
  let mstr := metadataStr state.metadata
  match oracle content mstr with
  | .error e => .error e
  | .ok response =>
    .ok { state with
            severity := some response.severity.toStr,
            explanation := some response.explanation }

/-- Router (`routing_decision` in src/main.py): maps the severity label
stored in the state to the name of the branch to take. -/
def routing_decision (state : ModerationState) : String :=
  let severity := state.severity
  if severity = some "safe" then "approve"
  else if severity = some "questionable" then "flag"
  else if severity = some "inappropriate" then "reject"
  else if severity = some "harmful" then "escalate"
  else "safe"

/-- Action Resolver `approve` from src/main.py. -/
def approve (state : ModerationState) : ModerationState :=
  let original_explanation := state.explanation.getD ""
  { state with
      action := some "approve",
      explanation := some ("✅ Your content has been approved and is safe to publish. No changes needed.\n\nAnalysis: " ++ original_explanation) }

/-- Action Resolver `flag` from src/main.py. -/
def flag (state : ModerationState) : ModerationState :=
  let original_explanation := state.explanation.getD ""
  { state with
      action := some "flag",
      explanation := some ("⚠️ Your content was classified as questionable.\n\nReason: " ++ original_explanation ++ "\n\nPlease review and revise your content to make it more appropriate before resubmitting.") }

/-- Action Resolver `reject` from src/main.py. -/
def reject (state : ModerationState) : ModerationState :=
  let original_explanation := state.explanation.getD ""
  { state with
      action := some "reject",
      explanation := some ("❌ Your content was classified as inappropriate.\n\nReason: " ++ original_explanation ++ "\n\nIt contains content that violates our guidelines and cannot be published. Please revise your content to make it more appropriate before resubmitting.") }

/-- Action Resolver `escalate` from src/main.py. -/
def escalate (state : ModerationState) : ModerationState :=
  let original_explanation := state.explanation.getD ""
  { state with
      action := some "escalate",
      explanation := some ("🚨 Your content was classified as harmful.\n\nReason: " ++ original_explanation ++ "\n\nThis content contains material that is dangerous, illegal, or severely violates our guidelines. This submission has been escalated for review. Please revise your content to remove any harmful material. If you believe this is an error, please contact support.") }

/-- Plain (unconditional) edges of the langgraph wiring in src/main.py,
with the langgraph START and END sentinels written out. -/
def graphEdges : List (String × String) :=
  [("__start__", "analyse_content"),
   ("analyse_content", "classify_severity"),
   ("approve", "__end__"),
   ("flag", "__end__"),
   ("reject", "__end__"),
   ("escalate", "__end__")]

/-- The path map passed to add_conditional_edges in src/main.py for the
conditional edges out of the classify_severity node. -/
def pathMap : List (String × String) :=
  [("approve", "approve"),
   ("flag", "flag"),
   ("reject", "reject"),
   ("escalate", "escalate")]

/-- Lookup in a string-keyed table. -/
def lookupStr (m : List (String × String)) (k : String) : Option String :=
  (m.find? (fun p => p.1 = k)).map (fun p => p.2)

/-- Dispatch of a node name to the node function registered for it by
add_node in src/main.py. -/
def runNode (oracle : Oracle) (name : String) (s : ModerationState) :
    Except String ModerationState :=
  if name = "analyse_content" then .ok (analyse_content s)
  else if name = "classify_severity" then classify_severity oracle s
  else if name = "approve" then .ok (approve s)
  else if name = "flag" then .ok (flag s)
  else if name = "reject" then .ok (reject s)
  else if name = "escalate" then .ok (escalate s)
  else .error ("Node " ++ name ++ " not found")

/-- Successor of a node: the conditional edges out of classify_severity
select the branch named by routing_decision through the path map (an
unknown branch name is a graph error); every other node follows its
unique plain edge. -/
def nextNode (name : String) (s : ModerationState) : Except String String :=
  if name = "classify_severity" then
    match lookupStr pathMap (routing_decision s) with
    | some t => .ok t
    | none =>
      .error ("Branch condition returned unknown destination " ++ routing_decision s)
  else
    match lookupStr graphEdges name with
    | some t => .ok t
    | none => .error ("No outgoing edge from node " ++ name)

/-- Fuelled executor for the compiled graph: starting from a node name it
runs the node, follows the outgoing edge and recurses, accumulating the
trace of executed node names.  Ten units of fuel are ample for the five
steps of this acyclic graph. -/
def execGraph (oracle : Oracle) :
    Nat → String → ModerationState → Except String (List String × ModerationState)
  | 0, _, _ => .error "Recursion limit reached"
  | Nat.succ fuel, name, s =>
    if name = "__end__" then .ok ([], s)
    else if name = "__start__" then
      match nextNode name s with
      | .error e => .error e
      | .ok nxt => execGraph oracle fuel nxt s
    else
      match runNode oracle name s with
      | .error e => .error e
      | .ok s2 =>
        match nextNode name s2 with
        | .error e => .error e
        | .ok nxt =>
          match execGraph oracle fuel nxt s2 with
          | .error e => .error e
          | .ok (tr, sf) => .ok (name :: tr, sf)

/-- The fresh state built by invoking the compiled graph with only the
content key set, as run_moderation does in src/app.py. -/
def initState (content : String) : ModerationState :=
  { content := content, severity := none, action := none,
    explanation := none, metadata := none }

/-- One invocation of the compiled graph on a content string, returning
the trace of executed node names together with the final state. -/
def builderInvoke (oracle : Oracle) (content : String) :
    Except String (List String × ModerationState) :=
  execGraph oracle 10 "__start__" (initState content)

/-- Model of run_moderation in src/app.py: invokes the compiled graph
and returns the final state, or catches any raised exception and returns
an error value carrying only the error string. -/
def run_moderation (oracle : Oracle) (content : String) :
    Except String ModerationState :=
  match builderInvoke oracle content with
  | .ok (_, s) => .ok s
  | .error e => .error e

/-- The four action identifiers of the pipeline. -/
def actionNames : List String := ["approve", "flag", "reject", "escalate"]

/-- The action identifier that the path map associates to each severity
label, used to state routing properties. -/
def SeverityLabel.actionName : SeverityLabel → String
  | .safe => "approve"
  | .questionable => "flag"
  | .inappropriate => "reject"
  | .harmful => "escalate"

/-! Helper lemmas shared by several claim proofs. -/

theorem analyse_content_content (s : ModerationState) :
    (analyse_content s).content = s.content := by
  unfold analyse_content; dsimp only; split <;> rfl

theorem analyse_content_severity (s : ModerationState) :
    (analyse_content s).severity = s.severity := by
  unfold analyse_content; dsimp only; split <;> rfl

theorem analyse_content_action (s : ModerationState) :
    (analyse_content s).action = s.action := by
  unfold analyse_content; dsimp only; split <;> rfl

theorem analyse_content_explanation (s : ModerationState) :
    (analyse_content s).explanation = s.explanation := by
  unfold analyse_content; dsimp only; split <;> rfl

theorem listStartsWith_iff (a b : List Char) :
    listStartsWith a b = true ↔ a <+: b := by
  induction a generalizing b with
  | nil => simp [listStartsWith]
  | cons x xs ih =>
    cases b with
    | nil => simp [listStartsWith]
    | cons y ys => simp [listStartsWith, ih, List.cons_prefix_cons]

theorem listContainsSub_iff (n : List Char) (l : List Char) :
    listContainsSub n l = true ↔ n <:+: l := by
  induction l with
  | nil => simp [listContainsSub]
  | cons x xs ih => simp [listContainsSub, listStartsWith_iff, ih, List.infix_cons_iff]

theorem strContains_iff (s sub : String) :
    strContains s sub = true ↔ sub.toList <:+: s.toList :=
  listContainsSub_iff sub.toList s.toList

theorem pyStrip_all_ws (s : String) (h : ∀ c ∈ s.toList, isPyWs c = true) :
    (pyStrip s).length = 0 := by
  unfold pyStrip
  have h1 : s.toList.dropWhile isPyWs = [] := List.dropWhile_eq_nil_iff.mpr h
  rw [h1]
  rfl

theorem pyStrip_length_ne_zero (s : String) (c : Char)
    (hc : c ∈ s.toList) (hw : isPyWs c = false) : (pyStrip s).length ≠ 0 := by
  unfold pyStrip
  have h1 : c ∈ s.toList.dropWhile isPyWs := by
    have hsplit := List.takeWhile_append_dropWhile (p := isPyWs) (l := s.toList)
    rw [← hsplit] at hc
    rcases List.mem_append.mp hc with h | h
    · exact absurd (List.mem_takeWhile_imp h) (by simp [hw])
    · exact h
  have h2 : (s.toList.dropWhile isPyWs).reverse.dropWhile isPyWs ≠ [] := by
    intro hnil
    have := List.dropWhile_eq_nil_iff.mp hnil c (List.mem_reverse.mpr h1)
    simp [hw] at this
  intro hlen
  apply h2
  have : ((s.toList.dropWhile isPyWs).reverse.dropWhile isPyWs).reverse.length = 0 := hlen
  simpa using List.length_eq_zero.mp this

/-- C1: For every severity in the set of the four declared labels, the
Router returns respectively approve, flag, reject and escalate; the
function is deterministic (it is a function of the state) and no other
output is possible for these four inputs. -/
theorem routerMapsFourSeverities (s : ModerationState) :
    (s.severity = some "safe" → routing_decision s = "approve") ∧
    (s.severity = some "questionable" → routing_decision s = "flag") ∧
    (s.severity = some "inappropriate" → routing_decision s = "reject") ∧
    (s.severity = some "harmful" → routing_decision s = "escalate") := by
  refine ⟨?_, ?_, ?_, ?_⟩ <;>
    · intro h
      unfold routing_decision
      rw [h]
      decide

/-- Witness for C1 at concrete states carrying each of the four labels. -/
theorem routerMapsFourSeverities_witness :
    routing_decision { initState "c" with severity := some "safe" } = "approve" ∧
    routing_decision { initState "c" with severity := some "questionable" } = "flag" ∧
    routing_decision { initState "c" with severity := some "inappropriate" } = "reject" ∧
    routing_decision { initState "c" with severity := some "harmful" } = "escalate" :=
  ⟨(routerMapsFourSeverities _).1 rfl,
   (routerMapsFourSeverities _).2.1 rfl,
   (routerMapsFourSeverities _).2.2.1 rfl,
   (routerMapsFourSeverities _).2.2.2 rfl⟩

/-- C2: the claim states that for a severity outside the four labels,
including an absent one, the Router returns the action identifier approve.
The code instead returns the string safe, which is not one of the four
action identifiers and is not a key of the path map handed to
add_conditional_edges in the same file, so on that value the graph cannot
route at all: the else branch contradicts the four-identifier contract
that the conditional-edge wiring of src/main.py itself demands. -/
theorem routerFallbackReturnsSafe :
    routing_decision (initState "some text") = "safe" ∧
    routing_decision { initState "some text" with severity := some "unknown" } = "safe" ∧
    ¬ "safe" ∈ actionNames ∧
    lookupStr pathMap "safe" = none ∧
    nextNode "classify_severity" { initState "some text" with severity := some "unknown" } =
      .error "Branch condition returned unknown destination safe" :=
  ⟨rfl, rfl, by decide, rfl, rfl⟩

/-- C3: For every content string that is empty or consists only of
whitespace, the Preprocessor returns the state with metadata replaced by
exactly the error marker, computing no other metadata key and leaving
every other field unchanged. -/
theorem preprocessorBlankContent (s : ModerationState)
    (h : s.content = "" ∨ ∀ c ∈ s.content.toList, isPyWs c = true) :
    analyse_content s =
      { s with metadata := some [("error", Value.str "Content is empty")] } := by
  have hlen : (pyStrip s.content).length = 0 := by
    rcases h with h | h
    · rw [h]; rfl
    · exact pyStrip_all_ws s.content h
  unfold analyse_content
  dsimp only
  rw [if_pos]
  simp [hlen]

/-- Witness for C3: the whitespace-only string and the empty string get
the identical metadata replacement, also over nonempty prior metadata. -/
theorem preprocessorBlankContent_witness :
    analyse_content (initState "   ") =
      { initState "   " with metadata := some [("error", Value.str "Content is empty")] } ∧
    analyse_content (initState "") =
      { initState "" with metadata := some [("error", Value.str "Content is empty")] } ∧
    analyse_content { initState " \t\n" with metadata := some [("k", Value.int 3)] } =
      { initState " \t\n" with metadata := some [("error", Value.str "Content is empty")] } :=
  ⟨preprocessorBlankContent _ (Or.inr (by decide)),
   preprocessorBlankContent _ (Or.inl rfl),
   preprocessorBlankContent _ (Or.inr (by decide))⟩

/-- C4: For every content string containing at least one non-whitespace
character, the Preprocessor merges into the prior metadata exactly the
three keys content_length, word_count and has_urls, where word_count
counts the whitespace-delimited tokens and has_urls holds exactly when
one of the two URL markers occurs as a contiguous substring; the function
is total, so it never raises. -/
theorem preprocessorNonBlank (s : ModerationState) (c : Char)
    (hc : c ∈ s.content.toList) (hw : isPyWs c = false) :
    analyse_content s =
      { s with metadata := some (dictMerge (s.metadata.getD [])
          [("content_length", Value.int s.content.length),
           ("word_count", Value.int (pySplit s.content).length),
           ("has_urls", Value.bool
              (strContains s.content "http://" || strContains s.content "https://"))]) } ∧
    ((strContains s.content "http://" || strContains s.content "https://") = true ↔
      ("http://".toList <:+: s.content.toList ∨ "https://".toList <:+: s.content.toList)) := by
  constructor
  · have hlen : (pyStrip s.content).length ≠ 0 := pyStrip_length_ne_zero s.content c hc hw
    have hne : ¬ s.content = "" := by
      intro he
      rw [he] at hc
      exact List.not_mem_nil c hc
    unfold analyse_content
    dsimp only
    rw [if_neg]
    simp [hne, hlen]
  · simp [strContains_iff]

/-- Witness for C4 on a concrete content string with a URL and a token
boundary, over nonempty prior metadata. -/
theorem preprocessorNonBlank_witness :
    analyse_content { initState "go to http://a.example now" with metadata := some [("k", Value.int 1)] } =
      { initState "go to http://a.example now" with metadata := some (dictMerge [("k", Value.int 1)]
          [("content_length", Value.int ("go to http://a.example now").length),
           ("word_count", Value.int (pySplit "go to http://a.example now").length),
           ("has_urls", Value.bool
              (strContains "go to http://a.example now" "http://" ||
               strContains "go to http://a.example now" "https://"))]) } ∧
    ((strContains "go to http://a.example now" "http://" ||
      strContains "go to http://a.example now" "https://") = true ↔
      ("http://".toList <:+: ("go to http://a.example now").toList ∨
       "https://".toList <:+: ("go to http://a.example now").toList)) :=
  preprocessorNonBlank _ 'g' (by decide) (by decide)

/-- C5 counterexample: the claim states that every resolver produces an
explanation equal to a fixed preamble concatenated with the verbatim
rationale, which forces the rationale to be the final segment of the
message.  The flag resolver appends fixed guidance text after the
rationale, so no such preamble can exist. -/
theorem resolverPreambleCounterexample :
    ¬ ∃ p : String, ∀ s : ModerationState,
        (flag s).explanation = some (p ++ s.explanation.getD "") := by
  rintro ⟨p, hp⟩
  have h1 := hp { initState "c" with explanation := some "A" }
  have h2 : ("⚠️ Your content was classified as questionable.\n\nReason: A\n\nPlease review and revise your content to make it more appropriate before resubmitting." : String) = p ++ "A" :=
    Option.some.inj h1
  have h4 : (p ++ "A").toList.getLast? = some 'A' := by
    have h0 : (p ++ "A").toList = p.toList ++ ['A'] := rfl
    rw [h0]
    exact List.getLast?_concat p.toList
  have h5 : ("⚠️ Your content was classified as questionable.\n\nReason: A\n\nPlease review and revise your content to make it more appropriate before resubmitting." : String).toList.getLast? = some '.' := by
    decide
  rw [h2, h4] at h5
  exact absurd (Option.some.inj h5) (by decide)

/-- C5 amended: each Action Resolver returns the input state with action
set to its own identifier and explanation replaced by its fixed message
template with the classifier rationale embedded verbatim; for flag,
reject and escalate fixed guidance text follows the rationale, while for
approve nothing does.  The rationale occurs contiguously in the message
and the message is never the empty string. -/
theorem resolverComposition (s : ModerationState) :
    approve s = { s with action := some "approve", explanation := some ("✅ Your content has been approved and is safe to publish. No changes needed.\n\nAnalysis: " ++ s.explanation.getD "") } ∧
    flag s = { s with action := some "flag", explanation := some ("⚠️ Your content was classified as questionable.\n\nReason: " ++ s.explanation.getD "" ++ "\n\nPlease review and revise your content to make it more appropriate before resubmitting.") } ∧
    reject s = { s with action := some "reject", explanation := some ("❌ Your content was classified as inappropriate.\n\nReason: " ++ s.explanation.getD "" ++ "\n\nIt contains content that violates our guidelines and cannot be published. Please revise your content to make it more appropriate before resubmitting.") } ∧
    escalate s = { s with action := some "escalate", explanation := some ("🚨 Your content was classified as harmful.\n\nReason: " ++ s.explanation.getD "" ++ "\n\nThis content contains material that is dangerous, illegal, or severely violates our guidelines. This submission has been escalated for review. Please revise your content to remove any harmful material. If you believe this is an error, please contact support.") } ∧
    (∀ f ∈ [approve, flag, reject, escalate],
      (s.explanation.getD "").toList <:+: ((f s).explanation.getD "").toList ∧
      (f s).explanation.getD "" ≠ "") := by
  refine ⟨rfl, rfl, rfl, rfl, ?_⟩
  intro f hf
  have key : ∀ pre suf : String, pre.toList ≠ [] →
      (s.explanation.getD "").toList <:+: (pre ++ s.explanation.getD "" ++ suf).toList ∧
      (pre ++ s.explanation.getD "" ++ suf) ≠ "" := by
    intro pre suf hpre
    constructor
    · exact ⟨pre.toList, suf.toList, rfl⟩
    · intro he
      have := congrArg String.toList he
      have hl : pre.toList ++ (s.explanation.getD "").toList ++ suf.toList = [] := this
      rcases List.append_eq_nil.mp hl with ⟨hl2, _⟩
      rcases List.append_eq_nil.mp hl2 with ⟨hl3, _⟩
      exact hpre hl3
  have keyApprove : ∀ pre : String, pre.toList ≠ [] →
      (s.explanation.getD "").toList <:+: (pre ++ s.explanation.getD "").toList ∧
      (pre ++ s.explanation.getD "") ≠ "" := by
    intro pre hpre
    have h := key pre "" hpre
    constructor
    · rcases h.1 with ⟨a, b, hab⟩
      exact ⟨a, b, by simpa using hab⟩
    · intro he
      exact h.2 (by simpa using congrArg (fun t => t ++ "") he)
  simp only [List.mem_cons, List.not_mem_nil, or_false] at hf
  rcases hf with rfl | rfl | rfl | rfl
  · exact keyApprove "✅ Your content has been approved and is safe to publish. No changes needed.\n\nAnalysis: " (by decide)
  · exact key "⚠️ Your content was classified as questionable.\n\nReason: " "\n\nPlease review and revise your content to make it more appropriate before resubmitting." (by decide)
  · exact key "❌ Your content was classified as inappropriate.\n\nReason: " "\n\nIt contains content that violates our guidelines and cannot be published. Please revise your content to make it more appropriate before resubmitting." (by decide)
  · exact key "🚨 Your content was classified as harmful.\n\nReason: " "\n\nThis content contains material that is dangerous, illegal, or severely violates our guidelines. This submission has been escalated for review. Please revise your content to remove any harmful material. If you believe this is an error, please contact support." (by decide)

/-- Witness for the amended C5 at a concrete state: the flag resolver
message embeds the rationale contiguously and is non-empty. -/
theorem resolverComposition_witness :
    ("R".toList <:+:
      ((flag { initState "c" with explanation := some "R" }).explanation.getD "").toList) ∧
    (flag { initState "c" with explanation := some "R" }).explanation.getD "" ≠ "" :=
  (resolverComposition { initState "c" with explanation := some "R" }).2.2.2.2 flag
    (by simp)

/-- C8: each Action Resolver is a deterministic pure function of its
input state, so invoking it twice on the same state yields the identical
output both times; in this embedding the resolvers are Lean functions,
which are pure by construction. -/
theorem resolverDeterministic (s : ModerationState) :
    approve s = approve s ∧ flag s = flag s ∧
    reject s = reject s ∧ escalate s = escalate s :=
  ⟨rfl, rfl, rfl, rfl⟩

/-- C9: when the explanation field is absent, every Action Resolver still
returns normally, composing its message with the empty string as the
embedded rationale; the resolvers are total functions with no failure
case. -/
theorem resolverAbsentExplanation (s : ModerationState) (h : s.explanation = none) :
    approve s = { s with action := some "approve", explanation := some "✅ Your content has been approved and is safe to publish. No changes needed.\n\nAnalysis: " } ∧
    flag s = { s with action := some "flag", explanation := some "⚠️ Your content was classified as questionable.\n\nReason: \n\nPlease review and revise your content to make it more appropriate before resubmitting." } ∧
    reject s = { s with action := some "reject", explanation := some "❌ Your content was classified as inappropriate.\n\nReason: \n\nIt contains content that violates our guidelines and cannot be published. Please revise your content to make it more appropriate before resubmitting." } ∧
    escalate s = { s with action := some "escalate", explanation := some "🚨 Your content was classified as harmful.\n\nReason: \n\nThis content contains material that is dangerous, illegal, or severely violates our guidelines. This submission has been escalated for review. Please revise your content to remove any harmful material. If you believe this is an error, please contact support." } := by
  refine ⟨?_, ?_, ?_, ?_⟩ <;> simp [approve, flag, reject, escalate, h]

/-- Witness for C9 at a concrete state with no explanation set. -/
theorem resolverAbsentExplanation_witness :
    approve (initState "c") = { initState "c" with action := some "approve", explanation := some "✅ Your content has been approved and is safe to publish. No changes needed.\n\nAnalysis: " } ∧
    flag (initState "c") = { initState "c" with action := some "flag", explanation := some "⚠️ Your content was classified as questionable.\n\nReason: \n\nPlease review and revise your content to make it more appropriate before resubmitting." } ∧
    reject (initState "c") = { initState "c" with action := some "reject", explanation := some "❌ Your content was classified as inappropriate.\n\nReason: \n\nIt contains content that violates our guidelines and cannot be published. Please revise your content to make it more appropriate before resubmitting." } ∧
    escalate (initState "c") = { initState "c" with action := some "escalate", explanation := some "🚨 Your content was classified as harmful.\n\nReason: \n\nThis content contains material that is dangerous, illegal, or severely violates our guidelines. This submission has been escalated for review. Please revise your content to remove any harmful material. If you believe this is an error, please contact support." } :=
  resolverAbsentExplanation (initState "c") rfl

/-- The state after the classifier stage succeeds with classification c
on an invocation that started from the given content string. -/
def classifiedState (content : String) (c : SeverityClassification) : ModerationState :=
  { analyse_content (initState content) with
      severity := some c.severity.toStr,
      explanation := some c.explanation }

/-- The resolver node that the path map selects for each severity label. -/
def resolverFor : SeverityLabel → ModerationState → ModerationState
  | .safe => approve
  | .questionable => flag
  | .inappropriate => reject
  | .harmful => escalate

theorem initState_content (content : String) : (initState content).content = content := rfl

theorem classify_severity_ok (oracle : Oracle) (content : String)
    (c : SeverityClassification)
    (h : oracle content (metadataStr (analyse_content (initState content)).metadata) = .ok c) :
    classify_severity oracle (analyse_content (initState content)) =
      .ok (classifiedState content c) := by
  have h2 : oracle (analyse_content (initState content)).content
      (metadataStr (analyse_content (initState content)).metadata) = .ok c := by
    rw [analyse_content_content, initState_content]
    exact h
  unfold classify_severity
  dsimp only
  rw [h2]
  rfl

theorem classify_severity_err (oracle : Oracle) (content : String) (e : String)
    (h : oracle content (metadataStr (analyse_content (initState content)).metadata) = .error e) :
    classify_severity oracle (analyse_content (initState content)) = .error e := by
  have h2 : oracle (analyse_content (initState content)).content
      (metadataStr (analyse_content (initState content)).metadata) = .error e := by
    rw [analyse_content_content, initState_content]
    exact h
  unfold classify_severity
  dsimp only
  rw [h2]

theorem route_classified (content : String) (c : SeverityClassification) :
    lookupStr pathMap (routing_decision (classifiedState content c)) =
      some c.severity.actionName := by
  rcases c with ⟨label, expl⟩
  cases label <;> rfl

theorem builderInvoke_unfold (oracle : Oracle) (content : String) :
    builderInvoke oracle content =
      match execGraph oracle 8 "classify_severity" (analyse_content (initState content)) with
      | .error e => .error e
      | .ok (tr, sf) => .ok ("analyse_content" :: tr, sf) := rfl

theorem execGraph_classify_step (oracle : Oracle) (s1 t : ModerationState) (a : String)
    (hcl : classify_severity oracle s1 = .ok t)
    (ha : lookupStr pathMap (routing_decision t) = some a) :
    execGraph oracle 8 "classify_severity" s1 =
      match execGraph oracle 7 a t with
      | .error e => .error e
      | .ok (tr, sf) => .ok ("classify_severity" :: tr, sf) := by
  have base : execGraph oracle 8 "classify_severity" s1 =
      match classify_severity oracle s1 with
      | .error e => .error e
      | .ok t2 =>
        match nextNode "classify_severity" t2 with
        | .error e => .error e
        | .ok nxt =>
          match execGraph oracle 7 nxt t2 with
          | .error e => .error e
          | .ok (tr, sf) => .ok ("classify_severity" :: tr, sf) := rfl
  have hnn : nextNode "classify_severity" t = .ok a := by
    unfold nextNode
    rw [if_pos rfl, ha]
  rw [base, hcl]
  dsimp only
  rw [hnn]

theorem execGraph_classify_err (oracle : Oracle) (s1 : ModerationState) (e : String)
    (hcl : classify_severity oracle s1 = .error e) :
    execGraph oracle 8 "classify_severity" s1 = .error e := by
  have base : execGraph oracle 8 "classify_severity" s1 =
      match classify_severity oracle s1 with
      | .error e => .error e
      | .ok t2 =>
        match nextNode "classify_severity" t2 with
        | .error e => .error e
        | .ok nxt =>
          match execGraph oracle 7 nxt t2 with
          | .error e => .error e
          | .ok (tr, sf) => .ok ("classify_severity" :: tr, sf) := rfl
  rw [base, hcl]

/-- Core execution lemma: when the external capability answers with a
classification, one graph invocation runs exactly the preprocessor, the
classifier and the single resolver selected by the router, in that
order, and ends with the resolver output applied to the classified
state. -/
theorem builderInvoke_ok (oracle : Oracle) (content : String) (c : SeverityClassification)
    (h : oracle content (metadataStr (analyse_content (initState content)).metadata) = .ok c) :
    builderInvoke oracle content =
      .ok (["analyse_content", "classify_severity", c.severity.actionName],
           resolverFor c.severity (classifiedState content c)) := by
  have hcl := classify_severity_ok oracle content c h
  have hstep := execGraph_classify_step oracle (analyse_content (initState content))
    (classifiedState content c) c.severity.actionName hcl (route_classified content c)
  rw [builderInvoke_unfold, hstep]
  rcases c with ⟨label, expl⟩
  cases label <;> rfl

theorem builderInvoke_err (oracle : Oracle) (content : String) (e : String)
    (h : oracle content (metadataStr (analyse_content (initState content)).metadata) = .error e) :
    builderInvoke oracle content = .error e := by
  have hcl := classify_severity_err oracle content e h
  rw [builderInvoke_unfold, execGraph_classify_err oracle _ e hcl]

/-- C6: for every content string, one pipeline invocation on which the
classification capability answers executes the fixed sequence of the
preprocessor, the classifier and then exactly one of the four resolvers
selected by the router; the trace has no repeated stage, contains
exactly one resolver, and the final state carries the severity the
classifier set together with the single action the resolver set. -/
theorem pipelineFixedSequence (oracle : Oracle) (content : String)
    (c : SeverityClassification)
    (h : oracle content (metadataStr (analyse_content (initState content)).metadata) = .ok c) :
    ∃ s : ModerationState,
      builderInvoke oracle content =
        .ok (["analyse_content", "classify_severity", c.severity.actionName], s) ∧
      c.severity.actionName ∈ actionNames ∧
      (["analyse_content", "classify_severity", c.severity.actionName].filter
        (fun n => n ∈ actionNames)).length = 1 ∧
      ["analyse_content", "classify_severity", c.severity.actionName].Nodup ∧
      s.severity = some c.severity.toStr ∧
      s.action = some c.severity.actionName := by
  refine ⟨resolverFor c.severity (classifiedState content c),
    builderInvoke_ok oracle content c h, ?_, ?_, ?_, ?_, ?_⟩ <;>
    · rcases c with ⟨label, expl⟩
      cases label <;> first | rfl | simp [SeverityLabel.actionName, actionNames]

/-- Witness for C6 with a constant classification capability returning
the harmful label, on a concrete content string. -/
theorem pipelineFixedSequence_witness :
    ∃ s : ModerationState,
      builderInvoke (fun _ _ => .ok ⟨.harmful, "threatens violence"⟩) "you will regret this" =
        .ok (["analyse_content", "classify_severity", "escalate"], s) ∧
      "escalate" ∈ actionNames ∧
      (["analyse_content", "classify_severity", "escalate"].filter
        (fun n => n ∈ actionNames)).length = 1 ∧
      ["analyse_content", "classify_severity", "escalate"].Nodup ∧
      s.severity = some "harmful" ∧
      s.action = some "escalate" :=
  pipelineFixedSequence (fun _ _ => .ok ⟨.harmful, "threatens violence"⟩)
    "you will regret this" ⟨.harmful, "threatens violence"⟩ rfl

/-- C7: when the external classification capability fails, the pipeline
invocation returns an error result that carries only the error string,
so in particular no severity and no action; when it answers, the result
is a success state holding one of the four severity labels, the action
the router selects for it, and the explanation composed by the resolver
selected for that severity. -/
theorem pipelineErrorAndSuccessContract (oracle : Oracle) (content : String) :
    (∀ e, oracle content (metadataStr (analyse_content (initState content)).metadata) = .error e →
      run_moderation oracle content = .error e) ∧
    (∀ c, oracle content (metadataStr (analyse_content (initState content)).metadata) = .ok c →
      ∃ s, run_moderation oracle content = .ok s ∧
        s.severity = some c.severity.toStr ∧
        c.severity.toStr ∈ ["safe", "questionable", "inappropriate", "harmful"] ∧
        s.action = some c.severity.actionName ∧
        c.severity.actionName ∈ actionNames ∧
        s.explanation =
          (resolverFor c.severity
            { initState content with explanation := some c.explanation }).explanation) := by
  constructor
  · intro e he
    unfold run_moderation
    rw [builderInvoke_err oracle content e he]
  · intro c hc
    refine ⟨resolverFor c.severity (classifiedState content c), ?_, ?_, ?_, ?_, ?_, ?_⟩
    · unfold run_moderation
      rw [builderInvoke_ok oracle content c hc]
    all_goals
      rcases c with ⟨label, expl⟩
      cases label <;> first | rfl | simp [SeverityLabel.actionName, SeverityLabel.toStr, actionNames]

/-- Witness for C7: a timing-out capability yields the bare error result,
and a constant safe classification yields the full success result. -/
theorem pipelineErrorAndSuccessContract_witness :
    run_moderation (fun _ _ => .error "Request timed out") "hello there" =
      .error "Request timed out" ∧
    ∃ s, run_moderation (fun _ _ => .ok ⟨.safe, "friendly greeting"⟩) "hello there" = .ok s ∧
      s.severity = some "safe" ∧
      "safe" ∈ ["safe", "questionable", "inappropriate", "harmful"] ∧
      s.action = some "approve" ∧
      "approve" ∈ actionNames ∧
      s.explanation =
        (resolverFor .safe
          { initState "hello there" with explanation := some "friendly greeting" }).explanation :=
  ⟨(pipelineErrorAndSuccessContract (fun _ _ => .error "Request timed out") "hello there").1
      "Request timed out" rfl,
   (pipelineErrorAndSuccessContract (fun _ _ => .ok ⟨.safe, "friendly greeting"⟩) "hello there").2
      ⟨.safe, "friendly greeting"⟩ rfl⟩

/-- C10: each stage only writes its designated fields.  The preprocessor
update leaves content, severity, action and explanation unchanged; a
successful classifier update leaves content, metadata and action
unchanged; every resolver update leaves content, severity and metadata
unchanged.  In particular content is never modified and metadata is
unchanged from the classifier stage onward. -/
theorem stageFrameConditions (oracle : Oracle) (s : ModerationState) :
    (analyse_content s).content = s.content ∧
    (analyse_content s).severity = s.severity ∧
    (analyse_content s).action = s.action ∧
    (analyse_content s).explanation = s.explanation ∧
    (∀ t, classify_severity oracle s = .ok t →
      t.content = s.content ∧ t.metadata = s.metadata ∧ t.action = s.action) ∧
    (∀ f ∈ [approve, flag, reject, escalate],
      (f s).content = s.content ∧ (f s).severity = s.severity ∧
      (f s).metadata = s.metadata) := by
  refine ⟨analyse_content_content s, analyse_content_severity s,
    analyse_content_action s, analyse_content_explanation s, ?_, ?_⟩
  · intro t ht
    unfold classify_severity at ht
    dsimp only at ht
    split at ht
    · exact absurd ht (by simp)
    · rename_i r hr
      rcases Except.ok.inj ht with rfl
      exact ⟨rfl, rfl, rfl⟩
  · intro f hf
    simp only [List.mem_cons, List.not_mem_nil, or_false] at hf
    rcases hf with rfl | rfl | rfl | rfl <;> exact ⟨rfl, rfl, rfl⟩

/-- Witness for C10 at a concrete state and a constant capability. -/
theorem stageFrameConditions_witness :
    classify_severity (fun _ _ => .ok ⟨.questionable, "borderline"⟩)
        { initState "hmm" with metadata := some [("k", Value.int 1)] } =
      .ok { initState "hmm" with metadata := some [("k", Value.int 1)], severity := some "questionable", explanation := some "borderline" } ∧
    ({ initState "hmm" with metadata := some [("k", Value.int 1)], severity := some "questionable", explanation := some "borderline" } : ModerationState).metadata =
      ({ initState "hmm" with metadata := some [("k", Value.int 1)] } : ModerationState).metadata ∧
    (flag { initState "hmm" with metadata := some [("k", Value.int 1)] }).metadata =
      ({ initState "hmm" with metadata := some [("k", Value.int 1)] } : ModerationState).metadata := by
  have h := stageFrameConditions (fun _ _ => .ok ⟨.questionable, "borderline"⟩)
    { initState "hmm" with metadata := some [("k", Value.int 1)] }
  exact ⟨rfl, (h.2.2.2.2.1 _ rfl).2.1, (h.2.2.2.2.2 flag (by simp)).2.2⟩

end ContentModerator
